import Mathlib

/-! # rlgl.h : compile-time configuration, enumerations and declared interface

A verification development over `examples/oculus_glfw_sample/rlgl.h`.

The header is read top to bottom by the C preprocessor.  The part that
computes something is the block of conditional directives at lines 54-84:
two "security checks" over the three `GRAPHICS_API_OPENGL_*` switches and
the conditional block that defines the batch capacities.  Each directive
group is embedded as a function on the set of defined switches.
-/

namespace Rlgl

/-! ## Preprocessor state -/

/-- Which of the three backend switches are `#define`d at some point of the
header (`true` = defined). -/
structure Switches where
  GRAPHICS_API_OPENGL_11 : Bool
  GRAPHICS_API_OPENGL_33 : Bool
  GRAPHICS_API_OPENGL_ES2 : Bool
deriving DecidableEq, Repr

/-- The three object-like macros the block at lines 73-84 defines. -/
structure BatchCapacities where
  MAX_LINES_BATCH : Nat
  MAX_TRIANGLES_BATCH : Nat
  MAX_QUADS_BATCH : Nat
deriving DecidableEq, Repr

/-- Lines 54-57: security check in case no `GRAPHICS_API_OPENGL_*` defined.
  > #if !defined(GRAPHICS_API_OPENGL_11) && !defined(GRAPHICS_API_OPENGL_33) && !defined(GRAPHICS_API_OPENGL_ES2)
  > #define GRAPHICS_API_OPENGL_11
  > #endif
-/
def securityCheckNoneDefined (s : Switches) : Switches :=
  if !s.GRAPHICS_API_OPENGL_11 && !s.GRAPHICS_API_OPENGL_33 && !s.GRAPHICS_API_OPENGL_ES2 then
    { s with GRAPHICS_API_OPENGL_11 := true }
  else s

/-- Lines 59-68: security check in case multiple `GRAPHICS_API_OPENGL_*` defined.
  > #if defined(GRAPHICS_API_OPENGL_11)
  > #if defined(GRAPHICS_API_OPENGL_33)
  > #undef GRAPHICS_API_OPENGL_33
  > #endif
  > #if defined(GRAPHICS_API_OPENGL_ES2)
  > #undef GRAPHICS_API_OPENGL_ES2
  > #endif
  > #endif
-/
def securityCheckMultipleDefined (s : Switches) : Switches :=
  if s.GRAPHICS_API_OPENGL_11 then
    let s1 := if s.GRAPHICS_API_OPENGL_33 then { s with GRAPHICS_API_OPENGL_33 := false } else s
    let s2 := if s1.GRAPHICS_API_OPENGL_ES2 then { s1 with GRAPHICS_API_OPENGL_ES2 := false } else s1
    s2
  else s

/-- Lines 54-68: both security checks, in header order. -/
def securityChecks (s : Switches) : Switches :=
  securityCheckMultipleDefined (securityCheckNoneDefined s)

/-- Lines 73-84: the `#if` / `#elif` block defining the batch capacities.
`none` means neither branch is taken, so the three macros stay undefined.
  > #if defined(GRAPHICS_API_OPENGL_11) || defined(GRAPHICS_API_OPENGL_33)
  > #define MAX_LINES_BATCH         8192
  > #define MAX_TRIANGLES_BATCH     4096
  > #define MAX_QUADS_BATCH         4096
  > #elif defined(GRAPHICS_API_OPENGL_ES2)
  > #define MAX_LINES_BATCH         1024
  > #define MAX_TRIANGLES_BATCH     2048
  > #define MAX_QUADS_BATCH         1024
  > #endif
-/
def batchCapacities (s : Switches) : Option BatchCapacities :=
  if s.GRAPHICS_API_OPENGL_11 || s.GRAPHICS_API_OPENGL_33 then
    some { MAX_LINES_BATCH := 8192, MAX_TRIANGLES_BATCH := 4096, MAX_QUADS_BATCH := 4096 }
  else if s.GRAPHICS_API_OPENGL_ES2 then
    some { MAX_LINES_BATCH := 1024, MAX_TRIANGLES_BATCH := 2048, MAX_QUADS_BATCH := 1024 }
  else none

/-- Lines 54-84 read in order from the switches defined on entry: the
capacities in effect for the rest of the translation unit. -/
def headerCapacities (s : Switches) : Option BatchCapacities :=
  batchCapacities (securityChecks s)

/-- Number of switches defined. -/
def Switches.count (s : Switches) : Nat :=
  s.GRAPHICS_API_OPENGL_11.toNat + s.GRAPHICS_API_OPENGL_33.toNat + s.GRAPHICS_API_OPENGL_ES2.toNat

/-- Set inclusion on defined switches: everything defined in `a` is defined in `b`. -/
def Switches.subset (a b : Switches) : Bool :=
  (!a.GRAPHICS_API_OPENGL_11 || b.GRAPHICS_API_OPENGL_11) &&
  (!a.GRAPHICS_API_OPENGL_33 || b.GRAPHICS_API_OPENGL_33) &&
  (!a.GRAPHICS_API_OPENGL_ES2 || b.GRAPHICS_API_OPENGL_ES2)

/-- Exactly `GRAPHICS_API_OPENGL_11` selected. -/
def onlyGL11 : Switches := ⟨true, false, false⟩
/-- Exactly `GRAPHICS_API_OPENGL_33` selected. -/
def onlyGL33 : Switches := ⟨false, true, false⟩
/-- Exactly `GRAPHICS_API_OPENGL_ES2` selected. -/
def onlyES2 : Switches := ⟨false, false, true⟩
/-- No switch defined on entry. -/
def noneDefined : Switches := ⟨false, false, false⟩

/-- Total number of primitives the three batch buffers hold. -/
def BatchCapacities.total (c : BatchCapacities) : Nat :=
  c.MAX_LINES_BATCH + c.MAX_TRIANGLES_BATCH + c.MAX_QUADS_BATCH

/-! ## Enumerations (lines 89-93) -/

/-- The C rule for enumeration constants: an enumerator with `= v` has value `v`;
one without has the previous enumerator's value plus one; the first, if it has no
`=`, has value 0.  `next` is the value an enumerator without `=` gets. -/
def enumValues : List (String × Option Int) → Int → List (String × Int)
  | [], _ => []
  | (n, some v) :: rest, _ => (n, v) :: enumValues rest (v + 1)
  | (n, none) :: rest, next => (n, next) :: enumValues rest (next + 1)

/-- Line 89: `typedef enum { RL_PROJECTION, RL_MODELVIEW, RL_TEXTURE } MatrixMode;` -/
def MatrixModeDecl : List (String × Option Int) :=
  [("RL_PROJECTION", none), ("RL_MODELVIEW", none), ("RL_TEXTURE", none)]

/-- Line 91: `typedef enum { RL_LINES, RL_TRIANGLES, RL_QUADS } DrawMode;` -/
def DrawModeDecl : List (String × Option Int) :=
  [("RL_LINES", none), ("RL_TRIANGLES", none), ("RL_QUADS", none)]

/-- Line 93: `typedef enum { OPENGL_11 = 1, OPENGL_33, OPENGL_ES_20 } GlVersion;` -/
def GlVersionDecl : List (String × Option Int) :=
  [("OPENGL_11", some 1), ("OPENGL_33", none), ("OPENGL_ES_20", none)]

/-- Enumerators of `MatrixMode`. -/
inductive MatrixMode where
  | RL_PROJECTION | RL_MODELVIEW | RL_TEXTURE
deriving DecidableEq, Repr

/-- Enumerators of `DrawMode`. -/
inductive DrawMode where
  | RL_LINES | RL_TRIANGLES | RL_QUADS
deriving DecidableEq, Repr

/-- Enumerators of `GlVersion`. -/
inductive GlVersion where
  | OPENGL_11 | OPENGL_33 | OPENGL_ES_20
deriving DecidableEq, Repr

/-- Spelling of a `MatrixMode` enumerator in the header. -/
def MatrixMode.ident : MatrixMode → String
  | .RL_PROJECTION => "RL_PROJECTION"
  | .RL_MODELVIEW => "RL_MODELVIEW"
  | .RL_TEXTURE => "RL_TEXTURE"

/-- Spelling of a `DrawMode` enumerator in the header. -/
def DrawMode.ident : DrawMode → String
  | .RL_LINES => "RL_LINES"
  | .RL_TRIANGLES => "RL_TRIANGLES"
  | .RL_QUADS => "RL_QUADS"

/-- Spelling of a `GlVersion` enumerator in the header. -/
def GlVersion.ident : GlVersion → String
  | .OPENGL_11 => "OPENGL_11"
  | .OPENGL_33 => "OPENGL_33"
  | .OPENGL_ES_20 => "OPENGL_ES_20"

/-- Integer a caller passes for a `MatrixMode` enumerator (`none` if not declared). -/
def MatrixMode.toInt (m : MatrixMode) : Option Int :=
  (enumValues MatrixModeDecl 0).lookup m.ident

/-- Integer a caller passes for a `DrawMode` enumerator (`none` if not declared). -/
def DrawMode.toInt (m : DrawMode) : Option Int :=
  (enumValues DrawModeDecl 0).lookup m.ident

/-- Integer `rlGetVersion` reports for a `GlVersion` enumerator (`none` if not declared). -/
def GlVersion.toInt (v : GlVersion) : Option Int :=
  (enumValues GlVersionDecl 0).lookup v.ident

/-! ## Declared functions (lines 242-341) -/

/-- One function declaration of the header: return type, name and parameter types as
written, and whether it sits inside the `#if defined(RLGL_STANDALONE)` block of
lines 315-342. -/
structure FnDecl where
  ret : String
  name : String
  params : List String
  standaloneOnly : Bool
deriving DecidableEq, Repr

/-- Every function declaration of the header, in source order. -/
def declarations : List FnDecl := [
  ⟨"void", "rlMatrixMode", ["int"], false⟩,
  ⟨"void", "rlPushMatrix", [], false⟩,
  ⟨"void", "rlPopMatrix", [], false⟩,
  ⟨"void", "rlLoadIdentity", [], false⟩,
  ⟨"void", "rlTranslatef", ["float", "float", "float"], false⟩,
  ⟨"void", "rlRotatef", ["float", "float", "float", "float"], false⟩,
  ⟨"void", "rlScalef", ["float", "float", "float"], false⟩,
  ⟨"void", "rlMultMatrixf", ["float *"], false⟩,
  ⟨"void", "rlFrustum", ["double", "double", "double", "double", "double", "double"], false⟩,
  ⟨"void", "rlOrtho", ["double", "double", "double", "double", "double", "double"], false⟩,
  ⟨"void", "rlViewport", ["int", "int", "int", "int"], false⟩,
  ⟨"void", "rlBegin", ["int"], false⟩,
  ⟨"void", "rlEnd", [], false⟩,
  ⟨"void", "rlVertex2i", ["int", "int"], false⟩,
  ⟨"void", "rlVertex2f", ["float", "float"], false⟩,
  ⟨"void", "rlVertex3f", ["float", "float", "float"], false⟩,
  ⟨"void", "rlTexCoord2f", ["float", "float"], false⟩,
  ⟨"void", "rlNormal3f", ["float", "float", "float"], false⟩,
  ⟨"void", "rlColor4ub", ["byte", "byte", "byte", "byte"], false⟩,
  ⟨"void", "rlColor3f", ["float", "float", "float"], false⟩,
  ⟨"void", "rlColor4f", ["float", "float", "float", "float"], false⟩,
  ⟨"void", "rlEnableTexture", ["unsigned int"], false⟩,
  ⟨"void", "rlDisableTexture", [], false⟩,
  ⟨"void", "rlEnableRenderTexture", ["unsigned int"], false⟩,
  ⟨"void", "rlDisableRenderTexture", [], false⟩,
  ⟨"void", "rlEnableDepthTest", [], false⟩,
  ⟨"void", "rlDisableDepthTest", [], false⟩,
  ⟨"void", "rlEnableWireMode", [], false⟩,
  ⟨"void", "rlDisableWireMode", [], false⟩,
  ⟨"void", "rlDeleteTextures", ["unsigned int"], false⟩,
  ⟨"void", "rlDeleteRenderTextures", ["RenderTexture2D"], false⟩,
  ⟨"void", "rlDeleteShader", ["unsigned int"], false⟩,
  ⟨"void", "rlDeleteVertexArrays", ["unsigned int"], false⟩,
  ⟨"void", "rlDeleteBuffers", ["unsigned int"], false⟩,
  ⟨"void", "rlClearColor", ["byte", "byte", "byte", "byte"], false⟩,
  ⟨"void", "rlClearScreenBuffers", [], false⟩,
  ⟨"int", "rlGetVersion", [], false⟩,
  ⟨"void", "rlglInit", [], false⟩,
  ⟨"void", "rlglClose", [], false⟩,
  ⟨"void", "rlglDraw", [], false⟩,
  ⟨"void", "rlglInitGraphics", ["int", "int", "int", "int"], false⟩,
  ⟨"unsigned int", "rlglLoadTexture", ["void *", "int", "int", "int", "int"], false⟩,
  ⟨"RenderTexture2D", "rlglLoadRenderTexture", ["int", "int"], false⟩,
  ⟨"void", "rlglUpdateTexture", ["unsigned int", "int", "int", "int", "void *"], false⟩,
  ⟨"void", "rlglGenerateMipmaps", ["Texture2D"], false⟩,
  ⟨"void", "rlglLoadMesh", ["Mesh *", "bool"], false⟩,
  ⟨"void", "rlglUpdateMesh", ["Mesh", "int", "int"], false⟩,
  ⟨"void", "rlglDrawMesh", ["Mesh", "Material", "Matrix"], false⟩,
  ⟨"void", "rlglUnloadMesh", ["Mesh *"], false⟩,
  ⟨"Vector3", "rlglUnproject", ["Vector3", "Matrix", "Matrix"], false⟩,
  ⟨"unsigned char *", "rlglReadScreenPixels", ["int", "int"], false⟩,
  ⟨"void *", "rlglReadTexturePixels", ["Texture2D"], false⟩,
  ⟨"Shader", "LoadShader", ["char *", "char *"], true⟩,
  ⟨"void", "UnloadShader", ["Shader"], true⟩,
  ⟨"Shader", "GetDefaultShader", [], true⟩,
  ⟨"Shader", "GetStandardShader", [], true⟩,
  ⟨"Texture2D", "GetDefaultTexture", [], true⟩,
  ⟨"int", "GetShaderLocation", ["Shader", "const char *"], true⟩,
  ⟨"void", "SetShaderValue", ["Shader", "int", "float *", "int"], true⟩,
  ⟨"void", "SetShaderValuei", ["Shader", "int", "int *", "int"], true⟩,
  ⟨"void", "SetShaderValueMatrix", ["Shader", "int", "Matrix"], true⟩,
  ⟨"void", "SetMatrixProjection", ["Matrix"], true⟩,
  ⟨"void", "SetMatrixModelview", ["Matrix"], true⟩,
  ⟨"void", "BeginShaderMode", ["Shader"], true⟩,
  ⟨"void", "EndShaderMode", [], true⟩,
  ⟨"void", "BeginBlendMode", ["int"], true⟩,
  ⟨"void", "EndBlendMode", [], true⟩,
  ⟨"Light", "CreateLight", ["int", "Vector3", "Color"], true⟩,
  ⟨"void", "DestroyLight", ["Light"], true⟩]

/-- The declarations the header contributes, given whether `RLGL_STANDALONE` is defined. -/
def declared (standalone : Bool) : List FnDecl :=
  declarations.filter (fun d => !d.standaloneOnly || standalone)

/-- Look a declared function up by name. -/
def findDecl (standalone : Bool) (name : String) : Option FnDecl :=
  (declared standalone).find? (fun d => d.name == name)

/-- The type through which a function hands something to its caller: its return type,
or for a `void` function the type of its first parameter (`none` if it has none). -/
def FnDecl.resourceType (d : FnDecl) : Option String :=
  if d.ret == "void" then d.params.head? else some d.ret

/-- Whether `word` occurs at the start of `cs`. -/
def startsWith : List Char → List Char → Bool
  | [], _ => true
  | _ :: _, [] => false
  | w :: ws, c :: cs => w == c && startsWith ws cs

/-- Whether `word` occurs somewhere in `cs`. -/
def occursIn (word : List Char) : List Char → Bool
  | [] => startsWith word []
  | c :: cs => startsWith word (c :: cs) || occursIn word cs

/-- Functions whose name says they create something: the name contains `Load` or
`Create`. -/
def FnDecl.isCreator (d : FnDecl) : Bool :=
  occursIn "Load".toList d.name.toList || occursIn "Create".toList d.name.toList

/-- Whether `release` is declared as a `void` function of exactly one parameter whose
type is the resource type of the declared function `load`. -/
def releasedBy (standalone : Bool) (load release : String) : Bool :=
  match findDecl standalone load, findDecl standalone release with
  | some l, some r =>
    r.ret == "void" &&
      (match l.resourceType with
        | some t => r.params == [t]
        | none => false)
  | _, _ => false

/-- The load/release pairing the interface offers. -/
def loadReleasePairs : List (String × String) :=
  [("rlglLoadTexture", "rlDeleteTextures"),
   ("rlglLoadRenderTexture", "rlDeleteRenderTextures"),
   ("rlglLoadMesh", "rlglUnloadMesh"),
   ("LoadShader", "UnloadShader"),
   ("CreateLight", "DestroyLight")]

/-! ## Immediate-mode batching accumulator

The header only declares `rlBegin`, `rlEnd`, `rlVertex2i`, `rlVertex2f`, `rlVertex3f`
(lines 257-261) and `rlglDraw` (line 294); their bodies live in `rlgl.c`.  The state
machine below follows the design document, section 4.2, and takes the buffer
capacities from the header's macros.  Coordinates are kept abstract (`F` stands for
`float`). -/

/-- Vertices that make up one primitive of a draw mode. -/
def DrawMode.vertsPerPrimitive : DrawMode → Nat
  | .RL_LINES => 2
  | .RL_TRIANGLES => 3
  | .RL_QUADS => 4

/-- Capacity, in primitives, of the buffer of a draw mode. -/
def BatchCapacities.capacity (c : BatchCapacities) : DrawMode → Nat
  | .RL_LINES => c.MAX_LINES_BATCH
  | .RL_TRIANGLES => c.MAX_TRIANGLES_BATCH
  | .RL_QUADS => c.MAX_QUADS_BATCH

/-- Capacity, in vertices, of the buffer of a draw mode. -/
def BatchCapacities.vertexCapacity (c : BatchCapacities) (m : DrawMode) : Nat :=
  c.capacity m * m.vertsPerPrimitive

/-- One submitted vertex position, as given to `rlVertex2i`, `rlVertex2f` or
`rlVertex3f`. -/
inductive Vertex (F : Type) where
  | rlVertex2i (x y : Int)
  | rlVertex2f (x y : F)
  | rlVertex3f (x y z : F)
deriving DecidableEq, Repr

/-- The calls of the immediate-mode interface that concern the accumulator. -/
inductive Call (F : Type) where
  | rlBegin (mode : DrawMode)
  | rlEnd
  | rlVertex (v : Vertex F)
  | rlglDraw
deriving DecidableEq, Repr

/-- One batched draw call: the mode and the vertices it submits, in order. -/
structure DrawCall (F : Type) where
  mode : DrawMode
  vertices : List (Vertex F)
deriving DecidableEq, Repr

/-- Modelled from the spec: the accumulator state behind `rlBegin` / `rlVertex*` /
`rlEnd` / `rlglDraw`, whose implementation (`rlgl.c`) is missing.  One
fixed-capacity buffer per draw mode, the active draw mode, and the draw calls issued
so far (oldest first). -/
structure Accumulator (F : Type) where
  mode : DrawMode
  lines : List (Vertex F)
  triangles : List (Vertex F)
  quads : List (Vertex F)
  drawn : List (DrawCall F)
deriving DecidableEq, Repr

/-- The accumulator with nothing accumulated and nothing drawn. -/
def Accumulator.empty (F : Type) (mode : DrawMode) : Accumulator F :=
  { mode := mode, lines := [], triangles := [], quads := [], drawn := [] }

/-- The buffer of a draw mode. -/
def Accumulator.buffer {F : Type} (a : Accumulator F) : DrawMode → List (Vertex F)
  | .RL_LINES => a.lines
  | .RL_TRIANGLES => a.triangles
  | .RL_QUADS => a.quads

/-- Replace the buffer of a draw mode. -/
def Accumulator.setBuffer {F : Type} (a : Accumulator F) (m : DrawMode)
    (b : List (Vertex F)) : Accumulator F :=
  match m with
  | .RL_LINES => { a with lines := b }
  | .RL_TRIANGLES => { a with triangles := b }
  | .RL_QUADS => { a with quads := b }

/-- Whole primitives accumulated for a draw mode. -/
def Accumulator.primitives {F : Type} (a : Accumulator F) (m : DrawMode) : Nat :=
  (a.buffer m).length / m.vertsPerPrimitive

/-- Modelled from the spec: the active draw mode's buffer is full (section 4.2,
"when the active draw-mode's buffer is full"); `rlgl.c` is missing. -/
def Accumulator.isFull {F : Type} (caps : BatchCapacities) (a : Accumulator F) : Bool :=
  decide (caps.vertexCapacity a.mode ≤ (a.buffer a.mode).length)

/-- Modelled from the spec: `rlglDraw`, the batch flush (section 4.2, "issuing a
single batched draw call per buffer"; glossary, "submitting accumulated vertices as
one draw call"), then restart with empty buffers; `rlgl.c` is missing. -/
def rlglDraw {F : Type} (a : Accumulator F) : Accumulator F :=
  { a with
    lines := [], triangles := [], quads := [],
    drawn := a.drawn ++
      [⟨.RL_LINES, a.lines⟩, ⟨.RL_TRIANGLES, a.triangles⟩, ⟨.RL_QUADS, a.quads⟩] }

/-- Modelled from the spec: `rlBegin(mode)` makes `mode` the active draw mode;
`rlgl.c` is missing. -/
def rlBegin {F : Type} (a : Accumulator F) (mode : DrawMode) : Accumulator F :=
  { a with mode := mode }

/-- Modelled from the spec: `rlEnd()` finishes vertex providing and leaves what has
been accumulated in place until a flush; `rlgl.c` is missing. -/
def rlEnd {F : Type} (a : Accumulator F) : Accumulator F := a

/-- Append a vertex to the active draw mode's buffer. -/
def Accumulator.accept {F : Type} (a : Accumulator F) (v : Vertex F) : Accumulator F :=
  a.setBuffer a.mode (a.buffer a.mode ++ [v])

/-- Modelled from the spec: `rlVertex2i` / `rlVertex2f` / `rlVertex3f` (section 4.2,
"when the active draw-mode's buffer is full, the accumulator must trigger an implicit
flush-and-restart before accepting further vertices"); `rlgl.c` is missing. -/
def rlVertex {F : Type} (caps : BatchCapacities) (a : Accumulator F) (v : Vertex F) :
    Accumulator F :=
  (if a.isFull caps then rlglDraw a else a).accept v

/-- One call applied to the accumulator. -/
def Accumulator.step {F : Type} (caps : BatchCapacities) (a : Accumulator F) :
    Call F → Accumulator F
  | .rlBegin m => rlBegin a m
  | .rlEnd => rlEnd a
  | .rlVertex v => rlVertex caps a v
  | .rlglDraw => rlglDraw a

/-- A sequence of calls applied in order. -/
def Accumulator.run {F : Type} (caps : BatchCapacities) (a : Accumulator F)
    (calls : List (Call F)) : Accumulator F :=
  calls.foldl (Accumulator.step caps) a

/-- The vertices of mode `m` submitted by a draw-call log, in order. -/
def drawnVertices {F : Type} (m : DrawMode) : List (DrawCall F) → List (Vertex F)
  | [] => []
  | d :: ds => if d.mode = m then d.vertices ++ drawnVertices m ds else drawnVertices m ds

/-- The vertices a call sequence submits under mode `m`, in submission order, when
`cur` is the active draw mode at its start. -/
def submitted {F : Type} (m : DrawMode) : DrawMode → List (Call F) → List (Vertex F)
  | _, [] => []
  | _, .rlBegin m1 :: cs => submitted m m1 cs
  | cur, .rlEnd :: cs => submitted m cur cs
  | cur, .rlVertex v :: cs =>
    if cur = m then v :: submitted m cur cs else submitted m cur cs
  | cur, .rlglDraw :: cs => submitted m cur cs

/-- Everything submitted so far under mode `m`: what has been drawn followed by what
is still pending in the buffer. -/
def Accumulator.history {F : Type} (a : Accumulator F) (m : DrawMode) : List (Vertex F) :=
  drawnVertices m a.drawn ++ a.buffer m

/-- Every vertex of a draw-call log, in the order the draw calls submit them. -/
def drawnInOrder {F : Type} : List (DrawCall F) → List (Vertex F)
  | [] => []
  | d :: ds => d.vertices ++ drawnInOrder ds

/-- Every vertex a call sequence submits, whatever the draw mode, in submission order. -/
def submittedInOrder {F : Type} : List (Call F) → List (Vertex F)
  | [] => []
  | .rlVertex v :: cs => v :: submittedInOrder cs
  | .rlBegin _ :: cs => submittedInOrder cs
  | .rlEnd :: cs => submittedInOrder cs
  | .rlglDraw :: cs => submittedInOrder cs

/-! ## Matrix stack

Declared at lines 242-249; the bodies live in `rlgl.c` and the matrix arithmetic in
`raymath.h`.  The model follows the design document, section 4.1.  `F` stands for
`float` and `M` for `Matrix`. -/

/-- The matrix arithmetic the transform calls rely on (`raymath.h`). -/
structure MatrixOps (F M : Type) where
  identity : M
  multiply : M → M → M
  translate : F → F → F → M
  rotate : F → F → F → F → M
  scale : F → F → F → M

/-- The transform calls of lines 245-249. -/
inductive Transform (F M : Type) where
  | rlLoadIdentity
  | rlTranslatef (x y z : F)
  | rlRotatef (angleDeg x y z : F)
  | rlScalef (x y z : F)
  | rlMultMatrixf (mat : M)

/-- Modelled from the spec: the matrix-stack state behind `rlMatrixMode` /
`rlPushMatrix` / `rlPopMatrix` and the transform calls, whose implementation
(`rlgl.c`) is missing: the active matrix mode, one current matrix per mode and one
stack per mode (top first). -/
structure MatrixState (M : Type) where
  mode : MatrixMode
  projection : M
  modelview : M
  texture : M
  projectionStack : List M
  modelviewStack : List M
  textureStack : List M
deriving DecidableEq, Repr

/-- The current matrix of a mode. -/
def MatrixState.current {M : Type} (st : MatrixState M) : MatrixMode → M
  | .RL_PROJECTION => st.projection
  | .RL_MODELVIEW => st.modelview
  | .RL_TEXTURE => st.texture

/-- The stack of a mode. -/
def MatrixState.stack {M : Type} (st : MatrixState M) : MatrixMode → List M
  | .RL_PROJECTION => st.projectionStack
  | .RL_MODELVIEW => st.modelviewStack
  | .RL_TEXTURE => st.textureStack

/-- Replace the current matrix of a mode. -/
def MatrixState.setCurrent {M : Type} (st : MatrixState M) (m : MatrixMode) (x : M) :
    MatrixState M :=
  match m with
  | .RL_PROJECTION => { st with projection := x }
  | .RL_MODELVIEW => { st with modelview := x }
  | .RL_TEXTURE => { st with texture := x }

/-- Replace the stack of a mode. -/
def MatrixState.setStack {M : Type} (st : MatrixState M) (m : MatrixMode) (xs : List M) :
    MatrixState M :=
  match m with
  | .RL_PROJECTION => { st with projectionStack := xs }
  | .RL_MODELVIEW => { st with modelviewStack := xs }
  | .RL_TEXTURE => { st with textureStack := xs }

/-- Modelled from the spec: `rlMatrixMode(mode)` chooses the current matrix to be
transformed; `rlgl.c` is missing. -/
def rlMatrixMode {M : Type} (st : MatrixState M) (mode : MatrixMode) : MatrixState M :=
  { st with mode := mode }

/-- Modelled from the spec: `rlPushMatrix` (section 4.1, "push saves current matrix
onto a stack keyed by the active mode"); `rlgl.c` is missing. -/
def rlPushMatrix {M : Type} (st : MatrixState M) : MatrixState M :=
  st.setStack st.mode (st.current st.mode :: st.stack st.mode)

/-- Modelled from the spec: `rlPopMatrix` (section 4.1, "pop restores the most
recently pushed matrix for that mode and fails (or is a no-op) if the stack is
empty"; section 7, "silently no-op on misuse"); `rlgl.c` is missing. -/
def rlPopMatrix {M : Type} (st : MatrixState M) : MatrixState M :=
  match st.stack st.mode with
  | [] => st
  | top :: rest => (st.setCurrent st.mode top).setStack st.mode rest

/-- Modelled from the spec: the transform calls (section 4.1, "all transform calls
right-multiply (or left-multiply ...) onto the current matrix"; `rlLoadIdentity`
resets the current matrix to identity); `rlgl.c` is missing. -/
def applyTransform {F M : Type} (ops : MatrixOps F M) (st : MatrixState M) :
    Transform F M → MatrixState M
  | .rlLoadIdentity => st.setCurrent st.mode ops.identity
  | .rlTranslatef x y z =>
    st.setCurrent st.mode (ops.multiply (st.current st.mode) (ops.translate x y z))
  | .rlRotatef angleDeg x y z =>
    st.setCurrent st.mode (ops.multiply (st.current st.mode) (ops.rotate angleDeg x y z))
  | .rlScalef x y z =>
    st.setCurrent st.mode (ops.multiply (st.current st.mode) (ops.scale x y z))
  | .rlMultMatrixf mat =>
    st.setCurrent st.mode (ops.multiply (st.current st.mode) mat)

/-- A sequence of transform calls applied in order. -/
def applyTransforms {F M : Type} (ops : MatrixOps F M) (st : MatrixState M)
    (ts : List (Transform F M)) : MatrixState M :=
  ts.foldl (applyTransform ops) st

/-! ## Lemmas: accumulator -/

/-- No buffer holds more vertices than its capacity allows. -/
def Accumulator.WithinCapacity {F : Type} (caps : BatchCapacities) (a : Accumulator F) : Prop :=
  ∀ m : DrawMode, (a.buffer m).length ≤ caps.vertexCapacity m

/-- Every capacity the header can put in effect is strictly positive, in vertices too. -/
theorem vertexCapacity_pos_of_header {s : Switches} {caps : BatchCapacities}
    (h : headerCapacities s = some caps) (m : DrawMode) : 0 < caps.vertexCapacity m := by
  rcases s with ⟨a, b, c⟩
  cases a <;> cases b <;> cases c <;>
    (simp [headerCapacities, securityChecks, securityCheckNoneDefined,
      securityCheckMultipleDefined, batchCapacities] at h
     subst h
     cases m <;> simp [BatchCapacities.vertexCapacity, BatchCapacities.capacity,
       DrawMode.vertsPerPrimitive])

theorem buffer_setBuffer {F : Type} (a : Accumulator F) (m m1 : DrawMode)
    (b : List (Vertex F)) :
    (a.setBuffer m b).buffer m1 = if m1 = m then b else a.buffer m1 := by
  cases m <;> cases m1 <;> simp [Accumulator.setBuffer, Accumulator.buffer]

theorem mode_setBuffer {F : Type} (a : Accumulator F) (m : DrawMode) (b : List (Vertex F)) :
    (a.setBuffer m b).mode = a.mode := by
  cases m <;> rfl

theorem drawn_setBuffer {F : Type} (a : Accumulator F) (m : DrawMode) (b : List (Vertex F)) :
    (a.setBuffer m b).drawn = a.drawn := by
  cases m <;> rfl

theorem buffer_rlglDraw {F : Type} (a : Accumulator F) (m : DrawMode) :
    (rlglDraw a).buffer m = [] := by
  cases m <;> rfl

theorem drawnVertices_append {F : Type} (m : DrawMode) (xs ys : List (DrawCall F)) :
    drawnVertices m (xs ++ ys) = drawnVertices m xs ++ drawnVertices m ys := by
  induction xs with
  | nil => rfl
  | cons d ds ih =>
    by_cases h : d.mode = m <;> simp [drawnVertices, h, ih]

theorem history_rlglDraw {F : Type} (a : Accumulator F) (m : DrawMode) :
    (rlglDraw a).history m = a.history m := by
  unfold Accumulator.history
  rw [buffer_rlglDraw]
  cases m <;> simp [rlglDraw, drawnVertices_append, drawnVertices, Accumulator.buffer]

theorem history_accept {F : Type} (a : Accumulator F) (v : Vertex F) (m : DrawMode) :
    (a.accept v).history m = if a.mode = m then a.history m ++ [v] else a.history m := by
  unfold Accumulator.history Accumulator.accept
  rw [buffer_setBuffer, drawn_setBuffer]
  by_cases h : a.mode = m
  · subst h; simp
  · have h1 : ¬ m = a.mode := fun e => h e.symm
    simp [h, h1]

theorem within_accept {F : Type} {caps : BatchCapacities} {a : Accumulator F}
    (h : a.WithinCapacity caps) (hroom : (a.buffer a.mode).length < caps.vertexCapacity a.mode)
    (v : Vertex F) : (a.accept v).WithinCapacity caps := by
  intro m
  unfold Accumulator.accept
  rw [buffer_setBuffer]
  by_cases hm : m = a.mode
  · subst hm; simp; omega
  · simp [hm]; exact h m

theorem within_rlglDraw {F : Type} (caps : BatchCapacities) (a : Accumulator F) :
    (rlglDraw a).WithinCapacity caps := by
  intro m
  rw [buffer_rlglDraw]
  exact Nat.zero_le _

theorem within_rlVertex {F : Type} {caps : BatchCapacities}
    (hpos : ∀ m, 0 < caps.vertexCapacity m) {a : Accumulator F}
    (h : a.WithinCapacity caps) (v : Vertex F) : (rlVertex caps a v).WithinCapacity caps := by
  unfold rlVertex
  by_cases hf : a.isFull caps = true
  · rw [if_pos hf]
    apply within_accept (within_rlglDraw caps a)
    rw [buffer_rlglDraw]
    exact hpos _
  · rw [if_neg hf]
    apply within_accept h
    simpa [Accumulator.isFull] using hf

theorem within_step {F : Type} {caps : BatchCapacities}
    (hpos : ∀ m, 0 < caps.vertexCapacity m) {a : Accumulator F}
    (h : a.WithinCapacity caps) (c : Call F) : (a.step caps c).WithinCapacity caps := by
  cases c with
  | rlBegin m =>
    intro m1
    have hb : (a.step caps (.rlBegin m)).buffer m1 = a.buffer m1 := by cases m1 <;> rfl
    rw [hb]
    exact h m1
  | rlEnd => exact h
  | rlVertex v => exact within_rlVertex hpos h v
  | rlglDraw => exact within_rlglDraw caps a

theorem within_run {F : Type} {caps : BatchCapacities}
    (hpos : ∀ m, 0 < caps.vertexCapacity m) (calls : List (Call F)) :
    ∀ a : Accumulator F, a.WithinCapacity caps → (a.run caps calls).WithinCapacity caps := by
  induction calls with
  | nil => intro a h; exact h
  | cons c cs ih => intro a h; exact ih _ (within_step hpos h c)

theorem mode_rlVertex {F : Type} (caps : BatchCapacities) (a : Accumulator F) (v : Vertex F) :
    (rlVertex caps a v).mode = a.mode := by
  unfold rlVertex Accumulator.accept
  rw [mode_setBuffer]
  split <;> rfl

theorem history_rlVertex {F : Type} (caps : BatchCapacities) (a : Accumulator F)
    (v : Vertex F) (m : DrawMode) :
    (rlVertex caps a v).history m = if a.mode = m then a.history m ++ [v] else a.history m := by
  unfold rlVertex
  by_cases hf : a.isFull caps = true
  · rw [if_pos hf, history_accept, history_rlglDraw]; rfl
  · rw [if_neg hf, history_accept]

theorem history_run {F : Type} (caps : BatchCapacities) (m : DrawMode)
    (calls : List (Call F)) :
    ∀ a : Accumulator F, (a.run caps calls).history m = a.history m ++ submitted m a.mode calls := by
  induction calls with
  | nil => intro a; simp [Accumulator.run, submitted]
  | cons c cs ih =>
    intro a
    have hrun : a.run caps (c :: cs) = (a.step caps c).run caps cs := rfl
    rw [hrun, ih]
    cases c with
    | rlBegin m1 =>
      simp only [Accumulator.step, rlBegin, submitted]
      cases m <;> rfl
    | rlEnd => simp [Accumulator.step, rlEnd, submitted]
    | rlVertex v =>
      simp only [Accumulator.step, submitted, mode_rlVertex, history_rlVertex]
      by_cases h : a.mode = m <;> simp [h]
    | rlglDraw =>
      simp only [Accumulator.step, submitted, history_rlglDraw]
      rfl

theorem setBuffer_setBuffer {F : Type} (a : Accumulator F) (m : DrawMode)
    (b c : List (Vertex F)) : (a.setBuffer m b).setBuffer m c = a.setBuffer m c := by
  cases m <;> rfl

/-- Vertices that still fit are appended to the active buffer and nothing is drawn. -/
theorem run_vertices_fit {F : Type} (caps : BatchCapacities) (vs : List (Vertex F)) :
    ∀ a : Accumulator F, (a.buffer a.mode).length + vs.length ≤ caps.vertexCapacity a.mode →
      a.run caps (vs.map Call.rlVertex) = a.setBuffer a.mode (a.buffer a.mode ++ vs) := by
  induction vs with
  | nil =>
    intro a _
    rcases a with ⟨mode, l, t, q, d⟩
    cases mode <;> simp [Accumulator.run, Accumulator.setBuffer, Accumulator.buffer]
  | cons v vs ih =>
    intro a h
    have hlen : (v :: vs).length = vs.length + 1 := rfl
    rw [hlen] at h
    have hnot : ¬ a.isFull caps = true := by
      simp only [Accumulator.isFull, decide_eq_true_eq]
      omega
    have hstep : a.step caps (.rlVertex v) = a.accept v := by
      simp only [Accumulator.step, rlVertex, if_neg hnot]
    have hrun : a.run caps ((v :: vs).map Call.rlVertex) =
        (a.step caps (.rlVertex v)).run caps (vs.map Call.rlVertex) := rfl
    have hmode : (a.accept v).mode = a.mode := mode_setBuffer _ _ _
    have hbuf : (a.accept v).buffer a.mode = a.buffer a.mode ++ [v] := by
      unfold Accumulator.accept
      rw [buffer_setBuffer, if_pos rfl]
    rw [hrun, hstep, ih (a.accept v) (by rw [hmode, hbuf]; simp; omega), hmode, hbuf]
    unfold Accumulator.accept
    rw [setBuffer_setBuffer, List.append_assoc]
    rfl

/-- The branch of a conditional statement that its condition selects, for a
conditional that is the fourth of five conjuncts. -/
theorem fourth_of_ite_of_true {b : Bool} {A B C P Q E : Prop}
    (h : A ∧ B ∧ C ∧ (if b then P else Q) ∧ E) (hb : b = true) : P := by
  have h4 := h.2.2.2.1
  rw [if_pos hb] at h4
  exact h4

/-! ## Lemmas: matrix stack -/

theorem mode_setCurrent {M : Type} (st : MatrixState M) (m : MatrixMode) (x : M) :
    (st.setCurrent m x).mode = st.mode := by
  cases m <;> rfl

theorem setCurrent_setCurrent {M : Type} (st : MatrixState M) (m : MatrixMode) (x y : M) :
    (st.setCurrent m x).setCurrent m y = st.setCurrent m y := by
  cases m <;> rfl

theorem setCurrent_current {M : Type} (st : MatrixState M) (m : MatrixMode) :
    st.setCurrent m (st.current m) = st := by
  cases m <;> rfl

/-- A transform call changes the current matrix of the active mode and nothing else. -/
theorem applyTransform_eq_setCurrent {F M : Type} (ops : MatrixOps F M) (st : MatrixState M)
    (t : Transform F M) : ∃ x : M, applyTransform ops st t = st.setCurrent st.mode x := by
  cases t <;> exact ⟨_, rfl⟩

/-- A sequence of transform calls changes the current matrix of the active mode and
nothing else. -/
theorem applyTransforms_eq_setCurrent {F M : Type} (ops : MatrixOps F M)
    (ts : List (Transform F M)) :
    ∀ st : MatrixState M, ∃ x : M, applyTransforms ops st ts = st.setCurrent st.mode x := by
  induction ts with
  | nil => intro st; exact ⟨st.current st.mode, (setCurrent_current st st.mode).symm⟩
  | cons t ts ih =>
    intro st
    obtain ⟨y, hy⟩ := applyTransform_eq_setCurrent ops st t
    obtain ⟨x, hx⟩ := ih (applyTransform ops st t)
    refine ⟨x, ?_⟩
    have hstep : applyTransforms ops st (t :: ts) = applyTransforms ops (applyTransform ops st t) ts :=
      rfl
    rw [hstep, hx, hy, mode_setCurrent, setCurrent_setCurrent]

/-- Popping right after a push undoes the push, whatever the current matrix of the
active mode has become in between. -/
theorem rlPopMatrix_setCurrent_rlPushMatrix {M : Type} (st : MatrixState M) (x : M) :
    rlPopMatrix ((rlPushMatrix st).setCurrent (rlPushMatrix st).mode x) = st := by
  rcases st with ⟨mode, p, mv, t, ps, ms, tx⟩
  cases mode <;> rfl

/-! ## Theorems: compile-time configuration -/

/-- C1: for each of the 8 initial combinations of the three switches, after both
security checks the block at lines 73-84 takes a branch, so the three batch
macros are defined, and each of them is strictly positive. -/
theorem batch_capacities_defined_positive (s : Switches) :
    ∃ c : BatchCapacities, headerCapacities s = some c ∧
      0 < c.MAX_LINES_BATCH ∧ 0 < c.MAX_TRIANGLES_BATCH ∧ 0 < c.MAX_QUADS_BATCH := by
  rcases s with ⟨a, b, c⟩
  cases a <;> cases b <;> cases c <;> exact ⟨_, rfl, by decide, by decide, by decide⟩

/-- C2: with no switch defined on entry the first security check selects OpenGL 1.1:
afterwards only `GRAPHICS_API_OPENGL_11` is defined and the capacities in effect
are 8192 lines, 4096 triangles, 4096 quads. -/
theorem none_defined_selects_gl11 :
    securityCheckNoneDefined noneDefined = onlyGL11 ∧
    securityChecks noneDefined = onlyGL11 ∧
    (securityChecks noneDefined).GRAPHICS_API_OPENGL_11 = true ∧
    (securityChecks noneDefined).GRAPHICS_API_OPENGL_33 = false ∧
    (securityChecks noneDefined).GRAPHICS_API_OPENGL_ES2 = false ∧
    headerCapacities noneDefined =
      some { MAX_LINES_BATCH := 8192, MAX_TRIANGLES_BATCH := 4096, MAX_QUADS_BATCH := 4096 } := by
  decide

/-- C3 (failing input): entered with `GRAPHICS_API_OPENGL_33` and
`GRAPHICS_API_OPENGL_ES2` both defined and `GRAPHICS_API_OPENGL_11` not, the two
security checks change nothing, so two switches are still defined afterwards; from
each of the other 7 initial combinations exactly one switch is defined afterwards. -/
theorem gl33_es2_both_survive_checks :
    securityChecks ⟨false, true, true⟩ = ⟨false, true, true⟩ ∧
    (securityChecks ⟨false, true, true⟩).count = 2 ∧
    (∀ s : Switches,
      (securityChecks s).count = if s = ⟨false, true, true⟩ then 2 else 1) := by
  refine ⟨by decide, by decide, ?_⟩
  intro s
  rcases s with ⟨a, b, c⟩
  cases a <;> cases b <;> cases c <;> decide

/-- C4: the embedded (ES2) profile's capacity is strictly smaller than the desktop
(OpenGL 1.1 and 3.3) capacity for lines, triangles and quads (1024 < 8192,
2048 < 4096, 1024 < 4096), and so is the total. -/
theorem es2_capacities_smaller_than_desktop :
    ∃ e d1 d3 : BatchCapacities,
      headerCapacities onlyES2 = some e ∧
      headerCapacities onlyGL11 = some d1 ∧ headerCapacities onlyGL33 = some d3 ∧
      e = ⟨1024, 2048, 1024⟩ ∧ d1 = ⟨8192, 4096, 4096⟩ ∧ d3 = ⟨8192, 4096, 4096⟩ ∧
      e.MAX_LINES_BATCH < d1.MAX_LINES_BATCH ∧ e.MAX_LINES_BATCH < d3.MAX_LINES_BATCH ∧
      e.MAX_TRIANGLES_BATCH < d1.MAX_TRIANGLES_BATCH ∧
      e.MAX_TRIANGLES_BATCH < d3.MAX_TRIANGLES_BATCH ∧
      e.MAX_QUADS_BATCH < d1.MAX_QUADS_BATCH ∧ e.MAX_QUADS_BATCH < d3.MAX_QUADS_BATCH ∧
      e.total < d1.total ∧ e.total < d3.total :=
  ⟨_, _, _, rfl, rfl, rfl, rfl, rfl, rfl, by decide, by decide, by decide, by decide,
    by decide, by decide, by decide, by decide⟩

/-- C5 (counterexample): the capacity triples of the three profiles are not pairwise
different, because the OpenGL 1.1 and OpenGL 3.3 profiles get the same triple. -/
theorem profile_triples_not_pairwise_different :
    ¬ (headerCapacities onlyGL11 ≠ headerCapacities onlyGL33 ∧
       headerCapacities onlyGL11 ≠ headerCapacities onlyES2 ∧
       headerCapacities onlyGL33 ≠ headerCapacities onlyES2) := by
  decide

/-- C5 (amended): the OpenGL 1.1 and OpenGL 3.3 profiles share the triple
(8192, 4096, 4096); the ES2 profile fixes (1024, 2048, 1024), which differs from
the desktop triple. -/
theorem desktop_profiles_share_triple_es2_differs :
    headerCapacities onlyGL11 = some ⟨8192, 4096, 4096⟩ ∧
    headerCapacities onlyGL33 = some ⟨8192, 4096, 4096⟩ ∧
    headerCapacities onlyES2 = some ⟨1024, 2048, 1024⟩ ∧
    headerCapacities onlyGL11 = headerCapacities onlyGL33 ∧
    headerCapacities onlyES2 ≠ headerCapacities onlyGL11 ∧
    headerCapacities onlyES2 ≠ headerCapacities onlyGL33 := by
  decide

/-- C10: the second security check gives `GRAPHICS_API_OPENGL_11` priority and touches
nothing else: if it is defined on entry, exactly it is defined afterwards; otherwise the
switches are unchanged.  The check never defines a switch, and it is idempotent. -/
theorem second_check_gl11_priority (s : Switches) :
    securityCheckMultipleDefined s = (if s.GRAPHICS_API_OPENGL_11 then onlyGL11 else s) ∧
    (securityCheckMultipleDefined s).GRAPHICS_API_OPENGL_11 = s.GRAPHICS_API_OPENGL_11 ∧
    (securityCheckMultipleDefined s).subset s = true ∧
    securityCheckMultipleDefined (securityCheckMultipleDefined s) =
      securityCheckMultipleDefined s := by
  rcases s with ⟨a, b, c⟩
  cases a <;> cases b <;> cases c <;> decide

/-! ## Theorems: enumerations and declarations -/

/-- C6: enumerator values follow declaration order: `MatrixMode` and `DrawMode` number
their enumerators 0, 1, 2 and `GlVersion` numbers `OPENGL_11`, `OPENGL_33`,
`OPENGL_ES_20` as 1, 2, 3; each enumerator-to-integer map is injective and no
`GlVersion` enumerator has value 0. -/
theorem enum_values_by_declaration_order :
    enumValues MatrixModeDecl 0 = [("RL_PROJECTION", 0), ("RL_MODELVIEW", 1), ("RL_TEXTURE", 2)] ∧
    enumValues DrawModeDecl 0 = [("RL_LINES", 0), ("RL_TRIANGLES", 1), ("RL_QUADS", 2)] ∧
    enumValues GlVersionDecl 0 = [("OPENGL_11", 1), ("OPENGL_33", 2), ("OPENGL_ES_20", 3)] ∧
    MatrixMode.toInt .RL_PROJECTION = some 0 ∧ MatrixMode.toInt .RL_MODELVIEW = some 1 ∧
    MatrixMode.toInt .RL_TEXTURE = some 2 ∧
    DrawMode.toInt .RL_LINES = some 0 ∧ DrawMode.toInt .RL_TRIANGLES = some 1 ∧
    DrawMode.toInt .RL_QUADS = some 2 ∧
    GlVersion.toInt .OPENGL_11 = some 1 ∧ GlVersion.toInt .OPENGL_33 = some 2 ∧
    GlVersion.toInt .OPENGL_ES_20 = some 3 ∧
    Function.Injective MatrixMode.toInt ∧ Function.Injective DrawMode.toInt ∧
    Function.Injective GlVersion.toInt ∧
    (∀ v : GlVersion, v.toInt ≠ some 0) ∧
    (0 : Int) ∉ (enumValues GlVersionDecl 0).map Prod.snd := by
  refine ⟨by decide, by decide, by decide, by decide, by decide, by decide, by decide,
    by decide, by decide, by decide, by decide, by decide, ?_, ?_, ?_, ?_, by decide⟩
  · intro a b; cases a <;> cases b <;> decide
  · intro a b; cases a <;> cases b <;> decide
  · intro a b; cases a <;> cases b <;> decide
  · intro v; cases v <;> decide

/-- C7: with `RLGL_STANDALONE` defined, each function that creates a resource
(`rlglLoadTexture`, `rlglLoadRenderTexture`, `rlglLoadMesh`, `LoadShader`,
`CreateLight`) has a declared release function taking the type the load function
produces; `rlLoadIdentity`, the only other name containing `Load` or `Create`,
produces nothing. -/
theorem every_load_has_matching_release :
    ((declared true).filter FnDecl.isCreator).map FnDecl.name =
      ["rlLoadIdentity", "rlglLoadTexture", "rlglLoadRenderTexture", "rlglLoadMesh",
       "LoadShader", "CreateLight"] ∧
    loadReleasePairs.all (fun p => releasedBy true p.1 p.2) = true ∧
    (findDecl true "rlglLoadTexture").bind FnDecl.resourceType = some "unsigned int" ∧
    findDecl true "rlDeleteTextures" = some ⟨"void", "rlDeleteTextures", ["unsigned int"], false⟩ ∧
    (findDecl true "rlglLoadRenderTexture").bind FnDecl.resourceType = some "RenderTexture2D" ∧
    findDecl true "rlDeleteRenderTextures" =
      some ⟨"void", "rlDeleteRenderTextures", ["RenderTexture2D"], false⟩ ∧
    (findDecl true "rlglLoadMesh").bind FnDecl.resourceType = some "Mesh *" ∧
    findDecl true "rlglUnloadMesh" = some ⟨"void", "rlglUnloadMesh", ["Mesh *"], false⟩ ∧
    (findDecl true "LoadShader").bind FnDecl.resourceType = some "Shader" ∧
    findDecl true "UnloadShader" = some ⟨"void", "UnloadShader", ["Shader"], true⟩ ∧
    (findDecl true "CreateLight").bind FnDecl.resourceType = some "Light" ∧
    findDecl true "DestroyLight" = some ⟨"void", "DestroyLight", ["Light"], true⟩ ∧
    (findDecl true "rlLoadIdentity").bind FnDecl.resourceType = none := by
  refine ⟨by decide, by decide, by decide, by decide, by decide, by decide, by decide,
    by decide, by decide, by decide, by decide, by decide, by decide⟩

/-! ## Theorems: accumulator and matrix stack -/

/-- C8 (amended): with the capacities the header puts in effect, after any sequence
of `rlBegin` / `rlVertex*` / `rlEnd` / `rlglDraw` calls no buffer holds more than its
capacity (in vertices and in primitives); a further vertex arriving at a full buffer
is preceded by a flush that draws the three buffers as they stand and is then
accepted, otherwise it is appended; and vertices of the same draw mode are drawn in
the order they were submitted: for each draw mode the vertices drawn followed by
those pending are the vertices submitted under that mode, in submission order. -/
theorem accumulator_never_overfills {F : Type} (s : Switches) (caps : BatchCapacities)
    (hcaps : headerCapacities s = some caps) (mode0 : DrawMode) (calls : List (Call F))
    (v : Vertex F) :
    let a := Accumulator.run caps (Accumulator.empty F mode0) calls
    (∀ m, (a.buffer m).length ≤ caps.vertexCapacity m) ∧
    (∀ m, a.primitives m ≤ caps.capacity m) ∧
    a.primitives a.mode ≤ caps.capacity a.mode ∧
    (if a.isFull caps then
      (rlVertex caps a v).buffer a.mode = [v] ∧
      (rlVertex caps a v).drawn = a.drawn ++
        [⟨.RL_LINES, a.lines⟩, ⟨.RL_TRIANGLES, a.triangles⟩, ⟨.RL_QUADS, a.quads⟩]
     else
      (rlVertex caps a v).buffer a.mode = a.buffer a.mode ++ [v] ∧
      (rlVertex caps a v).drawn = a.drawn) ∧
    (∀ m, a.history m = submitted m mode0 calls) := by
  intro a
  have hpos : ∀ m, 0 < caps.vertexCapacity m := vertexCapacity_pos_of_header hcaps
  have hinit : (Accumulator.empty F mode0).WithinCapacity caps := by
    intro m; cases m <;> exact Nat.zero_le _
  have hwithin : a.WithinCapacity caps := within_run hpos calls _ hinit
  have hprim : ∀ m, a.primitives m ≤ caps.capacity m := by
    intro m
    apply Nat.div_le_of_le_mul
    rw [Nat.mul_comm]
    exact hwithin m
  refine ⟨hwithin, hprim, hprim _, ?_, ?_⟩
  · by_cases hf : a.isFull caps = true
    · rw [if_pos hf]
      unfold rlVertex Accumulator.accept
      rw [if_pos hf, buffer_setBuffer, drawn_setBuffer, buffer_rlglDraw]
      exact ⟨by simp [rlglDraw], rfl⟩
    · rw [if_neg hf]
      unfold rlVertex Accumulator.accept
      rw [if_neg hf, buffer_setBuffer, drawn_setBuffer]
      exact ⟨by simp, rfl⟩
  · intro m
    have h := history_run caps m calls (Accumulator.empty F mode0)
    have h0 : (Accumulator.empty F mode0).history m = [] := by cases m <;> rfl
    rw [h0] at h
    simpa using h

/-- C8 (witness): under the embedded profile 2048 line vertices fill the line buffer
(1024 lines); the next vertex finds it full, the 2048 vertices are drawn first and the
new vertex is then the only one pending. -/
theorem accumulator_never_overfills_witness :
    headerCapacities onlyES2 = some ⟨1024, 2048, 1024⟩ ∧
    (Accumulator.run ⟨1024, 2048, 1024⟩ (Accumulator.empty Nat .RL_LINES)
        ((List.replicate 2048 (Vertex.rlVertex2i 0 0)).map Call.rlVertex)).isFull
      ⟨1024, 2048, 1024⟩ = true ∧
    (rlVertex ⟨1024, 2048, 1024⟩
        (Accumulator.run ⟨1024, 2048, 1024⟩ (Accumulator.empty Nat .RL_LINES)
          ((List.replicate 2048 (Vertex.rlVertex2i 0 0)).map Call.rlVertex))
        (.rlVertex2i 1 1)).buffer .RL_LINES = [.rlVertex2i 1 1] ∧
    (rlVertex ⟨1024, 2048, 1024⟩
        (Accumulator.run ⟨1024, 2048, 1024⟩ (Accumulator.empty Nat .RL_LINES)
          ((List.replicate 2048 (Vertex.rlVertex2i 0 0)).map Call.rlVertex))
        (.rlVertex2i 1 1)).drawn =
      [⟨.RL_LINES, List.replicate 2048 (.rlVertex2i 0 0)⟩, ⟨.RL_TRIANGLES, []⟩,
       ⟨.RL_QUADS, []⟩] := by
  have hfit := run_vertices_fit (⟨1024, 2048, 1024⟩ : BatchCapacities)
    (List.replicate 2048 (Vertex.rlVertex2i 0 0 : Vertex Nat)) (Accumulator.empty Nat .RL_LINES)
    (by rw [List.length_replicate]; decide)
  have hstate : Accumulator.run ⟨1024, 2048, 1024⟩ (Accumulator.empty Nat .RL_LINES)
      ((List.replicate 2048 (Vertex.rlVertex2i 0 0)).map Call.rlVertex) =
      { mode := .RL_LINES, lines := List.replicate 2048 (.rlVertex2i 0 0), triangles := [],
        quads := [], drawn := [] } := by
    rw [hfit]; rfl
  have hfull : Accumulator.isFull ⟨1024, 2048, 1024⟩
      (Accumulator.run ⟨1024, 2048, 1024⟩ (Accumulator.empty Nat .RL_LINES)
        ((List.replicate 2048 (Vertex.rlVertex2i 0 0)).map Call.rlVertex)) = true := by
    rw [hstate]
    unfold Accumulator.isFull
    rw [decide_eq_true_eq]
    show (1024 * 2 : Nat) ≤ (List.replicate 2048 (Vertex.rlVertex2i 0 0 : Vertex Nat)).length
    rw [List.length_replicate]
  have hflush := fourth_of_ite_of_true
    (accumulator_never_overfills onlyES2 ⟨1024, 2048, 1024⟩ (by decide) .RL_LINES
      ((List.replicate 2048 (Vertex.rlVertex2i 0 0 : Vertex Nat)).map Call.rlVertex)
      (.rlVertex2i 1 1)) hfull
  refine ⟨by decide, hfull, ?_, ?_⟩
  · have h1 := hflush.1
    rw [hstate] at h1
    rw [hstate]
    exact h1
  · have h2 := hflush.2
    rw [hstate] at h2
    rw [hstate]
    exact h2

/-- C8 (counterexample): vertices are not drawn in the order they were submitted once
draw modes are interleaved.  A line vertex, then a quad vertex, then a second line
vertex, then `rlglDraw`: the two line vertices share the one draw call of the line
buffer, so the quad vertex submitted between them is drawn after both. -/
theorem submission_order_not_kept_across_modes :
    headerCapacities onlyES2 = some ⟨1024, 2048, 1024⟩ ∧
    submittedInOrder
        ([.rlBegin .RL_LINES, .rlVertex (.rlVertex2i 1 1), .rlEnd,
          .rlBegin .RL_QUADS, .rlVertex (.rlVertex2i 2 2), .rlEnd,
          .rlBegin .RL_LINES, .rlVertex (.rlVertex2i 3 3), .rlEnd, .rlglDraw] :
          List (Call Nat)) =
      [.rlVertex2i 1 1, .rlVertex2i 2 2, .rlVertex2i 3 3] ∧
    drawnInOrder
        (Accumulator.run ⟨1024, 2048, 1024⟩ (Accumulator.empty Nat .RL_LINES)
          [.rlBegin .RL_LINES, .rlVertex (.rlVertex2i 1 1), .rlEnd,
           .rlBegin .RL_QUADS, .rlVertex (.rlVertex2i 2 2), .rlEnd,
           .rlBegin .RL_LINES, .rlVertex (.rlVertex2i 3 3), .rlEnd, .rlglDraw]).drawn =
      [.rlVertex2i 1 1, .rlVertex2i 3 3, .rlVertex2i 2 2] ∧
    ¬ (∀ calls : List (Call Nat),
        drawnInOrder
          (Accumulator.run ⟨1024, 2048, 1024⟩ (Accumulator.empty Nat .RL_LINES)
            (calls ++ [.rlglDraw])).drawn = submittedInOrder calls) := by
  refine ⟨by decide, by decide, by decide, ?_⟩
  intro hall
  have h := hall [.rlBegin .RL_LINES, .rlVertex (.rlVertex2i 1 1), .rlEnd,
    .rlBegin .RL_QUADS, .rlVertex (.rlVertex2i 2 2), .rlEnd,
    .rlBegin .RL_LINES, .rlVertex (.rlVertex2i 3 3), .rlEnd]
  revert h
  decide

/-- C9: for every state of the matrix stack, `rlPushMatrix`, then any sequence of
transform calls, then `rlPopMatrix` gives back the state before the push: the current
matrix of the active mode, its stack, and everything else; `rlPopMatrix` on an empty
stack leaves the state unchanged. -/
theorem push_transforms_pop_restores {F M : Type} (ops : MatrixOps F M) (st : MatrixState M)
    (ts : List (Transform F M)) :
    rlPopMatrix (applyTransforms ops (rlPushMatrix st) ts) = st ∧
    (rlPopMatrix (applyTransforms ops (rlPushMatrix st) ts)).current st.mode =
      st.current st.mode ∧
    (rlPopMatrix (applyTransforms ops (rlPushMatrix st) ts)).stack st.mode =
      st.stack st.mode ∧
    (st.stack st.mode = [] → rlPopMatrix st = st) := by
  have h : rlPopMatrix (applyTransforms ops (rlPushMatrix st) ts) = st := by
    obtain ⟨x, hx⟩ := applyTransforms_eq_setCurrent ops ts (rlPushMatrix st)
    rw [hx]
    exact rlPopMatrix_setCurrent_rlPushMatrix st x
  refine ⟨h, by rw [h], by rw [h], ?_⟩
  intro hempty
  unfold rlPopMatrix
  rw [hempty]

/-- C9 (witness): a modelview matrix with an empty stack, over natural numbers. -/
theorem push_transforms_pop_restores_witness :
    (⟨.RL_MODELVIEW, 1, 2, 3, [], [], []⟩ : MatrixState Nat).stack .RL_MODELVIEW = [] ∧
    rlPopMatrix (⟨.RL_MODELVIEW, 1, 2, 3, [], [], []⟩ : MatrixState Nat) =
      ⟨.RL_MODELVIEW, 1, 2, 3, [], [], []⟩ ∧
    rlPopMatrix (applyTransforms
        (⟨1, fun a b => a * b, fun x y z => x + y + z, fun a x y z => a + x + y + z,
          fun x y z => x * y * z⟩ : MatrixOps Nat Nat)
        (rlPushMatrix ⟨.RL_MODELVIEW, 1, 2, 3, [], [], []⟩)
        [.rlTranslatef 1 2 3, .rlLoadIdentity, .rlScalef 2 2 2, .rlMultMatrixf 7]) =
      ⟨.RL_MODELVIEW, 1, 2, 3, [], [], []⟩ :=
  ⟨rfl,
   (push_transforms_pop_restores
      (⟨1, fun a b => a * b, fun x y z => x + y + z, fun a x y z => a + x + y + z,
        fun x y z => x * y * z⟩ : MatrixOps Nat Nat)
      ⟨.RL_MODELVIEW, 1, 2, 3, [], [], []⟩
      [.rlTranslatef 1 2 3, .rlLoadIdentity, .rlScalef 2 2 2, .rlMultMatrixf 7]).2.2.2 rfl,
   (push_transforms_pop_restores
      (⟨1, fun a b => a * b, fun x y z => x + y + z, fun a x y z => a + x + y + z,
        fun x y z => x * y * z⟩ : MatrixOps Nat Nat)
      ⟨.RL_MODELVIEW, 1, 2, 3, [], [], []⟩
      [.rlTranslatef 1 2 3, .rlLoadIdentity, .rlScalef 2 2 2, .rlMultMatrixf 7]).1⟩

/-! ## Theorems: which capacities are in effect -/

/-- C11: the reduced embedded capacities (1024, 2048, 1024) are in effect if and only
if `GRAPHICS_API_OPENGL_ES2` is initially defined and neither `GRAPHICS_API_OPENGL_11`
nor `GRAPHICS_API_OPENGL_33` is; in each of the other 7 initial configurations the
desktop capacities (8192, 4096, 4096) are in effect, also with
`GRAPHICS_API_OPENGL_33` and `GRAPHICS_API_OPENGL_ES2` defined together, where the
`#if` branch of line 73 is taken before the `#elif` of line 78 is looked at. -/
theorem embedded_capacities_iff_only_es2 (s : Switches) :
    (headerCapacities s = some ⟨1024, 2048, 1024⟩ ↔
      (s.GRAPHICS_API_OPENGL_ES2 = true ∧ s.GRAPHICS_API_OPENGL_11 = false ∧
        s.GRAPHICS_API_OPENGL_33 = false)) ∧
    headerCapacities s =
      (if s = onlyES2 then some ⟨1024, 2048, 1024⟩ else some ⟨8192, 4096, 4096⟩) ∧
    securityChecks ⟨false, true, true⟩ = ⟨false, true, true⟩ ∧
    batchCapacities ⟨false, true, true⟩ = some ⟨8192, 4096, 4096⟩ ∧
    headerCapacities ⟨false, true, true⟩ = some ⟨8192, 4096, 4096⟩ ∧
    ((([false, true].flatMap fun a => [false, true].flatMap fun b =>
        [false, true].map fun c => (⟨a, b, c⟩ : Switches)).filter
      fun t => headerCapacities t == some ⟨8192, 4096, 4096⟩).length = 7) := by
  rcases s with ⟨a, b, c⟩
  cases a <;> cases b <;> cases c <;> decide

end Rlgl
